import Mathlib

/-!
Shallow embedding of the quote-generation pipeline of the
edge-exchange-plugins repository (files `src/swap/swapuz.ts` and
`src/swap/defi/thorchainDa.ts`), together with theorems settling the
frozen specification claims.

External collaborators (the `edge-core-js` wallet API, the `biggystring`
decimal-string library, HTTP fetch) are modelled as oracles or as exact
rational arithmetic; decimal-string amounts are modelled as `ℚ` where the
code performs arithmetic on them, and as `String` where the code merely
passes them through.
-/

/-- Outcome of one remote fetch as seen by the calling code:
the transport threw (`failed`), the transport succeeded with a non-2xx
HTTP status (`notOk`), or the transport succeeded and the body parsed
into the expected shape (`ok`). -/
inductive FetchOutcome (α : Type) where
  | failed : FetchOutcome α
  | notOk (status : ℕ) : FetchOutcome α
  | ok (a : α) : FetchOutcome α
deriving DecidableEq, Repr

/-- The typed errors thrown by the two plugins. `swapCurrencyError` and
`swapBelowLimitError` are the `edge-core-js` error classes; the remaining
constructors stand for the plain `Error(message)` throws, one constructor
per distinct throw site. -/
inductive SwapError where
  | swapCurrencyError (pluginId fromCode toCode : String)
  | swapBelowLimitError (pluginId : String) (nativeMin : ℚ)
  | disallowedPair (pluginId fromCode toCode : String)
  | httpError (source : String) (status : ℕ)
  | fetchThrow (source : String)
  | missingRouterAddress (mainnetCode : String)
  | missingSourceTokenAddress (mainnetCode : String)
  | invalidContractMethod
  | couldNotFindAbi (currencyPluginId contractAddress : String)
  | routerTypeLookupTypeError (tag : String)
  | noDataInTx
deriving DecidableEq, Repr

/-! ## Swapuz plugin (`src/swap/swapuz.ts`) -/

def swapuzPluginId : String := "swapuz"

/-- The two pricing modes tried by the Swapuz plugin. -/
inductive SwapuzMode where
  | fix
  | float
deriving DecidableEq, Repr

/-- Network effects issued by one Swapuz `getQuote` attempt: the
`rate/` GET and the `order` POST. -/
inductive SwapuzEffect where
  | rateFetch (mode : SwapuzMode)
  | orderFetch (mode : SwapuzMode)
deriving DecidableEq, Repr

/-- Parsed body of the Swapuz `rate/` endpoint (`asGetRate`), inside
`asApiResponse` whose `result` may be absent. -/
structure SwapuzRateResult where
  minAmount : ℚ
deriving DecidableEq, Repr

/-- Parsed body of the Swapuz `order` endpoint (`asCreateOrder`);
only the fields the plugin reads are kept. -/
structure SwapuzOrderResult where
  uid : String
  amountResult : ℚ
  addressFrom : String
  memoFrom : Option String
deriving DecidableEq, Repr

/-- Oracle inputs for one Swapuz `getQuote` attempt: what the two
fetches return.  `FetchOutcome (Option _)` because `asApiResponse`
accepts a response whose `result` field is missing. -/
structure SwapuzModeEnv where
  rateOutcome : FetchOutcome (Option SwapuzRateResult)
  orderOutcome : FetchOutcome (Option SwapuzOrderResult)

/-- The quote object assembled by `getQuote` (only the fields the
claims inspect are kept). -/
structure SwapuzQuote where
  fromNativeAmount : ℚ
  toNativeAmount : ℚ
  isEstimate : Bool
  orderId : String
deriving DecidableEq, Repr

/-- Embedding of the inner `getQuote` closure of `swapuz.ts`
(lines 115–223).  `largeDenomAmount` is the request amount in exchange
denomination; `fromMult` is the source wallet's denomination multiplier,
so that `denominationToNative x = x * fromMult` (the wallet conversion is
an external collaborator, modelled as an exact multiplier), and `toMult`
likewise for the destination wallet.  Returns the network effects issued
together with the result. -/
def swapuzGetQuote (mode : SwapuzMode) (env : SwapuzModeEnv)
    (fromCC toCC : String) (nativeAmount largeDenomAmount fromMult toMult : ℚ) :
    List SwapuzEffect × Except SwapError SwapuzQuote :=
  match env.rateOutcome with
  | .failed => ([.rateFetch mode], .error (.fetchThrow "swapuz rate"))
  | .notOk status => ([.rateFetch mode], .error (.httpError "swapuz rate" status))
  | .ok none =>
      ([.rateFetch mode], .error (.swapCurrencyError swapuzPluginId fromCC toCC))
  | .ok (some rate) =>
      if largeDenomAmount < rate.minAmount then
        ([.rateFetch mode],
          .error (.swapBelowLimitError swapuzPluginId (rate.minAmount * fromMult)))
      else
        match env.orderOutcome with
        | .failed =>
            ([.rateFetch mode, .orderFetch mode], .error (.fetchThrow "swapuz order"))
        | .notOk status =>
            ([.rateFetch mode, .orderFetch mode],
              .error (.httpError "swapuz order" status))
        | .ok none =>
            ([.rateFetch mode, .orderFetch mode],
              .error (.swapCurrencyError swapuzPluginId fromCC toCC))
        | .ok (some order) =>
            ([.rateFetch mode, .orderFetch mode],
              .ok { fromNativeAmount := nativeAmount
                    toNativeAmount := order.amountResult * toMult
                    isEstimate := mode = SwapuzMode.float
                    orderId := order.uid })

/-- Embedding of the mode-fallback control flow of
`fetchSwapQuoteInner` (lines 225–235): try `fix`, on failure try
`float`, and if both fail re-throw the `fix` error.  Returns the list of
modes attempted, in order, together with the result. -/
def swapuzTryModes {α : Type} (run : SwapuzMode → Except SwapError α) :
    List SwapuzMode × Except SwapError α :=
  match run .fix with
  | .ok q => ([.fix], .ok q)
  | .error e =>
      match run .float with
      | .ok q => ([.fix, .float], .ok q)
      | .error _ => ([.fix, .float], .error e)

/-- Embedding of the `quoteFor === 'to'` convergence loop of
`fetchSwapQuote` (lines 251–280).  `provider` runs one inner quote
attempt at a candidate input amount and yields the realized output
already converted into destination exchange units (the inner quote plus
`toWallet.nativeToDenomination`); `target` is `requestToExchangeAmount`.
The `ℕ` argument mirrors the `retries` counter of the source
(`let retries = 5; while (--retries !== 0)` — the pre-decrement means
the body does not run once the counter reaches 1).  The relative
shortfall `div18(diff, requestToExchangeAmount)` lives in
`src/util/biggystringplus.ts`, which is not part of the analysed
sources; it is modelled from the spec: the relative shortfall
`(target - realized) / target` as exact rational division.
Returns the number of provider attempts made together with the result;
a successful result is the quote obtained at the returned candidate
amount. -/
def swapuzConverge (provider : ℚ → Except SwapError ℚ) (target : ℚ)
    (fromCC toCC : String) : ℚ → ℕ → ℕ × Except SwapError ℚ
  | _, 0 => (0, .error (.swapCurrencyError swapuzPluginId fromCC toCC))
  | _, 1 => (0, .error (.swapCurrencyError swapuzPluginId fromCC toCC))
  | amt, retries + 2 =>
      match provider amt with
      | .error e => (1, .error e)
      | .ok realized =>
          if target ≤ realized then (1, .ok amt)
          else
            let diff := target - realized
            let percentDiff := diff / target
            let diffMultiplier := 1001 / 1000 + percentDiff
            let rest := swapuzConverge provider target fromCC toCC
              (diffMultiplier * amt) (retries + 1)
            (rest.1 + 1, rest.2)

/-- Embedding of the `quoteFor === 'to'` branch of `fetchSwapQuote`:
the loop entered with `retries = 5` and the initial candidate equal to
the requested (output) native amount. -/
def swapuzFetchSwapQuoteTo (provider : ℚ → Except SwapError ℚ) (target : ℚ)
    (fromCC toCC : String) (nativeAmount : ℚ) : ℕ × Except SwapError ℚ :=
  swapuzConverge provider target fromCC toCC nativeAmount 5

/-- Equality of `Except` results is decidable when both components are,
so that witnesses can be settled by `decide`. -/
instance {ε α : Type} [DecidableEq ε] [DecidableEq α] :
    DecidableEq (Except ε α) := fun a b =>
  match a, b with
  | .ok x, .ok y =>
      if h : x = y then .isTrue (by rw [h]) else .isFalse (by simp [h])
  | .error x, .error y =>
      if h : x = y then .isTrue (by rw [h]) else .isFalse (by simp [h])
  | .ok _, .error _ => .isFalse (by simp)
  | .error _, .ok _ => .isFalse (by simp)

example :
    swapuzFetchSwapQuoteTo (fun _ => .ok 0) 1 "BTC" "ETH" 1 =
      (4, .error (.swapCurrencyError "swapuz" "BTC" "ETH")) := by decide

example :
    swapuzFetchSwapQuoteTo (fun a => .ok a) 1 "BTC" "ETH" 1 = (1, .ok 1) := by decide

/-! ## Thorchain DEX Aggregator plugin (`src/swap/defi/thorchainDa.ts`) -/

def tdaPluginId : String := "thorchainda"

/-- Lower-casing used by `contractAddress.toLowerCase()`. -/
def toLowerCase (s : String) : String := ⟨s.data.map Char.toLower⟩

/-- One entry of the router interface registry `abiMap` (from
`./abi/abiMap`, outside the analysed sources): a router-type tag and an
opaque contract-interface description. -/
structure AbiEntry where
  type : String
  data : String
deriving DecidableEq, Repr

/-- The `calldataOrder` template table (lines 485–514): router-type tag
to the ordered list of named call-data parameters.  A JavaScript object
lookup, so a miss yields `none` (`undefined`). -/
def calldataOrder (tag : String) : Option (List String) :=
  if tag = "TC_ROUTER_GENERIC" then
    some ["tcRouter", "tcVault", "tcMemo", "token", "amount", "router", "data",
      "deadline"]
  else if tag = "TC_ROUTER_UNISWAP" then
    some ["tcRouter", "tcVault", "tcMemo", "token", "amount", "amountOutMin",
      "deadline"]
  else if tag = "TC_ROUTER_PANGOLIN" then
    some ["tcRouter", "tcVault", "tcMemo", "token", "amount", "amountOutMin",
      "deadline"]
  else none

/-- Embedding of `getCalldataData` (lines 516–553).  The `try` block
covers the whole registry lookup including the `type === 'INVALID'`
throw, and its `catch` rethrows every failure as the single
`Could not find ABI for contract` error (`couldNotFindAbi`); a
router-type tag absent from `calldataOrder` is only detected after the
`try`, where `calldataOrder[contractType].map` raises an uncaught
`TypeError` (`routerTypeLookupTypeError`).  `abiMap` is the registry
oracle (keyed by currency-plugin id and lower-cased contract address);
`encode` is the `ethers` ABI-encoding oracle
(`contract.populateTransaction[method](...params)`), yielding `none`
when the resulting transaction carries no data; `calldata` is the raw
call-data payload as a partial map from parameter name to value. -/
def getCalldataData (abiMap : String → String → Option AbiEntry)
    (encode : String → List (Option String) → String → Option String)
    (currencyPluginId contractAddress contractMethod : String)
    (calldata : String → Option String) : Except SwapError String :=
  match abiMap currencyPluginId (toLowerCase contractAddress) with
  | none => .error (.couldNotFindAbi currencyPluginId contractAddress)
  | some entry =>
      if entry.type = "INVALID" then
        .error (.couldNotFindAbi currencyPluginId contractAddress)
      else
        match calldataOrder entry.type with
        | none => .error (.routerTypeLookupTypeError entry.type)
        | some keys =>
            match encode contractMethod (keys.map calldata) entry.data with
            | none => .error .noDataInTx
            | some tx => .ok tx

/-- One element of the `thorchain/inbound_addresses` response
(`asInboundAddresses`). -/
structure InboundAddress where
  chain : String
  address : String
  router : Option String
  halted : Bool

/-- One route of the thorswap quote response (`asThorSwapRoute`);
`calldata` is the raw payload as a partial map (its `tcMemo` and `memo`
fields are what `asCalldata` extracts). -/
structure ThorRoute where
  contract : Option String
  contractMethod : Option String
  providers : List String
  calldata : String → Option String
  expectedOutputMaxSlippage : String
  path : String

/-- The `swap.plugins.thorchain` section of the info-server
`exchangeInfo` payload (shape from `./thorchain`, flattened to the three
fields this plugin reads). -/
structure ThorchainTuningPayload where
  daVolatilitySpread : ℚ
  thorSwapServers : Option (List String)
  thornodeServers : Option (List String)
deriving DecidableEq, Repr

/-- The module-level cache of the info-server payload
(`exchangeInfo` / `exchangeInfoLastUpdate`, lines 107–108). -/
structure TdaState where
  exchangeInfo : Option ThorchainTuningPayload
  lastUpdate : ℕ
deriving DecidableEq, Repr

/-- `DA_VOLATILITY_SPREAD_DEFAULT = 0.03` (line 100). -/
def DA_VOLATILITY_SPREAD_DEFAULT : ℚ := 3 / 100

/-- `THORSWAP_DEFAULT_SERVERS` (lines 101–103). -/
def THORSWAP_DEFAULT_SERVERS : List String :=
  ["https://aggregator-prod-aulilvmdlq-uc.a.run.app"]

/-- Modelled from the spec: `THORNODE_SERVERS_DEFAULT` is defined in
`./thorchain`, outside the analysed sources; the spec only requires it
to be a hardcoded default server list, so an opaque constant value is
used. -/
def THORNODE_SERVERS_DEFAULT : List String := ["thornode-default-server"]

/-- Modelled from the spec: `EXCHANGE_INFO_UPDATE_FREQ_MS` is defined in
`./thorchain`, outside the analysed sources; the spec's cache example
uses a 60000 ms time-to-live. -/
def EXCHANGE_INFO_UPDATE_FREQ_MS : ℕ := 60000

/-- The tuning values the quote path actually uses (volatility spread
and the two server lists). -/
structure TdaTuning where
  daVolatilitySpread : ℚ
  thornodeServers : List String
  thorswapServers : List String
deriving DecidableEq, Repr

/-- Network effects issued by one Thorchain DA quote. -/
inductive TdaEffect where
  | infoFetch
  | iaFetch
  | quoteFetch
deriving DecidableEq, Repr

/-- Embedding of the cache refresh step (lines 172–195): when stale or
never populated, attempt one info fetch; only a transport-successful,
well-formed 2xx response replaces the payload and timestamp, every
failure is logged and otherwise ignored. -/
def tdaRefreshInfo (now : ℕ) (outcome : FetchOutcome ThorchainTuningPayload)
    (st : TdaState) : TdaState × List TdaEffect :=
  if now - st.lastUpdate > EXCHANGE_INFO_UPDATE_FREQ_MS ∨ st.exchangeInfo = none then
    match outcome with
    | .ok payload => ({ exchangeInfo := some payload, lastUpdate := now }, [.infoFetch])
    | _ => (st, [.infoFetch])
  else (st, [])

/-- Embedding of the tuning resolution (lines 153–155 and 197–202):
defaults, overridden by the cached payload when present, with the
payload's optional server lists themselves falling back to the
defaults. -/
def tdaTuningOf (st : TdaState) : TdaTuning :=
  match st.exchangeInfo with
  | none =>
      { daVolatilitySpread := DA_VOLATILITY_SPREAD_DEFAULT
        thornodeServers := THORNODE_SERVERS_DEFAULT
        thorswapServers := THORSWAP_DEFAULT_SERVERS }
  | some payload =>
      { daVolatilitySpread := payload.daVolatilitySpread
        thornodeServers := payload.thornodeServers.getD THORNODE_SERVERS_DEFAULT
        thorswapServers := payload.thorSwapServers.getD THORSWAP_DEFAULT_SERVERS }

/-- Embedding of the route selection (lines 285–302): take the first
route of the response (`const [thorSwap] = routes`), failing when there
is none, and reject a route whose provider-hop list has length at most
one. -/
def tdaSelectRoute (fromCC toCC : String) (routes : List ThorRoute) :
    Except SwapError ThorRoute :=
  match routes with
  | [] => .error (.swapCurrencyError tdaPluginId fromCC toCC)
  | route :: _ =>
      if route.providers.length ≤ 1 then
        .error (.swapCurrencyError tdaPluginId fromCC toCC)
      else .ok route

/-- Lower-case hexadecimal digit: `0`–`9` for values below ten, `a`–`f`
for ten to fifteen. -/
def hexDigit (n : ℕ) : Char :=
  if n < 10 then Char.ofNat (48 + n) else Char.ofNat (87 + n)

/-- `Buffer.from(memo).toString('hex')`: lower-case hex encoding of the
UTF-8 bytes of a string. -/
def hexOfString (s : String) : String :=
  s.toUTF8.foldl
    (fun acc b =>
      acc.push (hexDigit (b.toNat / 16)) |>.push (hexDigit (b.toNat % 16)))
    ""

/-- The fields of an `EdgeSwapRequest` this plugin reads.  `quoteFor`
keeps the wire strings `from` / `to` / `max`. -/
structure TdaRequest where
  fromPluginId : String
  toPluginId : String
  fromCurrencyCode : String
  toCurrencyCode : String
  nativeAmount : String
  quoteFor : String

/-- Oracle inputs for one Thorchain DA quote: everything the plugin
obtains from external collaborators (wallet API, token registry,
transcription table from `./thorchain`, the three fetches, the
`defiUtils` encoders, the ABI registry). -/
structure TdaEnv where
  request : TdaRequest
  invalidCodes : Bool
  fromAddress : String
  toAddress : String
  mainnetCode : String → Option String
  now : ℕ
  infoOutcome : FetchOutcome ThorchainTuningPayload
  sellAmount : String
  fromTokenIdRaw : Option String
  toTokenIdRaw : Option String
  iaOutcome : FetchOutcome (List InboundAddress)
  quoteOutcome : FetchOutcome (List ThorRoute)
  toNativeAmount : String
  evmCodes : String → Bool
  evmTokenData : String
  approvalData : Option String
  gasLimit : Option String
  abiMap : String → String → Option AbiEntry
  encode : String → List (Option String) → String → Option String

/-- The approval spend instruction (`preTx` spend info,
lines 402–417). -/
structure TdaApprovalSpend where
  currencyCode : String
  memo : String
  nativeAmount : String
  publicAddress : String
deriving DecidableEq, Repr

/-- The `SwapOrder` object returned by `fetchSwapQuoteInner`
(lines 460–468), flattened to the fields the claims inspect: the main
spend target, the optional gas-limit override, the optional approval
spend, the order-level `fromNativeAmount`, and the metadata notes. -/
structure TdaSwapOrder where
  currencyCode : String
  spendMemo : String
  spendNativeAmount : String
  spendPublicAddress : String
  payoutAddress : String
  payoutNativeAmount : String
  gasLimit : Option String
  preTx : Option TdaApprovalSpend
  fromNativeAmount : String
  metadataNotes : String
deriving DecidableEq, Repr

/-- Embedding of the spend-construction phase (lines 304–468), entered
after the inbound address and route have been selected.  It decides the
memo, destination and amount of the main spend target: an EVM token
swap routes to the contract with amount `'0'` after encoding either the
direct deposit call (`getEvmTokenData`, oracled) or the aggregator
call (`getCalldataData`), and may prepend an approval spend; an EVM
native swap hex-encodes the memo, keeps the deposit vault as
destination and may carry a gas-limit override; a non-EVM token is
rejected. -/
def tdaBuildSpend (env : TdaEnv) (fromMainnetCode : String)
    (inAddr : InboundAddress) (route : ThorRoute) :
    Except SwapError TdaSwapOrder :=
  let req := env.request
  let tcDirect := route.providers.head? = some "THORCHAIN"
  let memo0 := ((route.calldata "tcMemo").getD ((route.calldata "memo").getD ""))
  let contractAddress := if tcDirect then inAddr.router else route.contract
  let sourceTokenContractAddress :=
    if fromMainnetCode ≠ req.fromCurrencyCode then
      some ("0x" ++ env.fromTokenIdRaw.getD "")
    else none
  let notes :=
    "DEX Providers: " ++ String.intercalate " -> " route.providers ++
      "\nPath: " ++ route.path
  let finish : String → String → String → Option String →
      Option TdaApprovalSpend → Except SwapError TdaSwapOrder :=
    fun memo ethNativeAmount publicAddress gasLimit preTx =>
      .ok { currencyCode := req.fromCurrencyCode
            spendMemo := memo
            spendNativeAmount := ethNativeAmount
            spendPublicAddress := publicAddress
            payoutAddress := env.toAddress
            payoutNativeAmount := env.toNativeAmount
            gasLimit := gasLimit
            preTx := preTx
            fromNativeAmount := req.nativeAmount
            metadataNotes := notes }
  if env.evmCodes fromMainnetCode then
    if fromMainnetCode ≠ req.fromCurrencyCode then
      match contractAddress with
      | none => .error (.missingRouterAddress fromMainnetCode)
      | some contractAddr =>
          match sourceTokenContractAddress with
          | none => .error (.missingSourceTokenAddress fromMainnetCode)
          | some sourceAddr =>
              let memoResult : Except SwapError String :=
                if tcDirect then .ok env.evmTokenData
                else
                  match route.contractMethod with
                  | none => .error .invalidContractMethod
                  | some method =>
                      getCalldataData env.abiMap env.encode req.fromPluginId
                        contractAddr method route.calldata
              match memoResult with
              | .error e => .error e
              | .ok memo =>
                  let preTx := env.approvalData.map fun approval =>
                    { currencyCode := fromMainnetCode
                      memo := approval
                      nativeAmount := "0"
                      publicAddress := sourceAddr }
                  finish memo "0" contractAddr none preTx
    else
      finish ("0x" ++ hexOfString memo0) req.nativeAmount inAddr.address
        env.gasLimit none
  else
    if fromMainnetCode ≠ req.fromCurrencyCode then
      .error (.swapCurrencyError tdaPluginId req.fromCurrencyCode
        req.toCurrencyCode)
    else
      finish memo0 req.nativeAmount inAddr.address none none

/-- Embedding of `fetchSwapQuoteInner` of `thorchainDa.ts`
(lines 132–469): same-asset rejection, invalid-code check, address and
mainnet-code resolution, cache refresh, reverse-quote rejection, the two
concurrent fetches, inbound-address selection, route selection, and
spend construction.  Returns the updated cache state, the network
effects issued in order, and the result. -/
def tdaFetchSwapQuoteInner (env : TdaEnv) (st : TdaState) :
    TdaState × List TdaEffect × Except SwapError TdaSwapOrder :=
  let req := env.request
  if req.fromPluginId = req.toPluginId ∧
      req.fromCurrencyCode = req.toCurrencyCode then
    (st, [], .error (.swapCurrencyError tdaPluginId req.fromCurrencyCode
      req.toCurrencyCode))
  else if env.invalidCodes then
    (st, [], .error (.disallowedPair tdaPluginId req.fromCurrencyCode
      req.toCurrencyCode))
  else
    match env.mainnetCode req.fromPluginId, env.mainnetCode req.toPluginId with
    | some fromMainnetCode, some _toMainnetCode =>
        let refreshed := tdaRefreshInfo env.now env.infoOutcome st
        let st' := refreshed.1
        let effs := refreshed.2
        let _tuning := tdaTuningOf st'
        if req.quoteFor = "to" then
          (st', effs, .error (.swapCurrencyError tdaPluginId
            req.fromCurrencyCode req.toCurrencyCode))
        else
          let effs := effs ++ [.iaFetch, .quoteFetch]
          match env.iaOutcome with
          | .failed => (st', effs, .error (.fetchThrow "thorchain inbound_addresses"))
          | .notOk status =>
              (st', effs, .error (.httpError "thorchain inbound_addresses" status))
          | .ok inboundAddresses =>
              match env.quoteOutcome with
              | .failed => (st', effs, .error (.fetchThrow "thorswap quote"))
              | .notOk status =>
                  (st', effs, .error (.httpError "thorswap quote" status))
              | .ok routes =>
                  match inboundAddresses.find? fun addrObj =>
                      !addrObj.halted && addrObj.chain == fromMainnetCode with
                  | none =>
                      (st', effs, .error (.swapCurrencyError tdaPluginId
                        req.fromCurrencyCode req.toCurrencyCode))
                  | some inAddr =>
                      match tdaSelectRoute req.fromCurrencyCode
                          req.toCurrencyCode routes with
                      | .error e => (st', effs, .error e)
                      | .ok route =>
                          (st', effs, tdaBuildSpend env fromMainnetCode inAddr
                            route)
    | _, _ =>
        (st, [], .error (.swapCurrencyError tdaPluginId req.fromCurrencyCode
          req.toCurrencyCode))

/-! ## Theorems -/

/-- When every provider attempt succeeds but undershoots the target, the
convergence loop entered with counter `n + 1` makes exactly `n` attempts
and fails with the currency-pair error. -/
lemma swapuzConverge_undershoot (provider : ℚ → Except SwapError ℚ)
    (target : ℚ) (fromCC toCC : String)
    (h : ∀ a, ∃ r, provider a = .ok r ∧ r < target) :
    ∀ (n : ℕ) (amt : ℚ),
      swapuzConverge provider target fromCC toCC amt (n + 1) =
        (n, .error (.swapCurrencyError swapuzPluginId fromCC toCC)) := by
  intro n
  induction n with
  | zero => intro amt; rfl
  | succ m ih =>
      intro amt
      obtain ⟨r, hr, hlt⟩ := h amt
      show swapuzConverge provider target fromCC toCC amt (m + 2) = _
      simp only [swapuzConverge, hr]
      rw [if_neg (not_le.mpr hlt)]
      simp [ih]

/-- C1 (amended): when the realized output never reaches the target, the
quote-for-output solver makes exactly 4 quote attempts in total and then
fails with the currency-pair error naming the asset pair; it never makes
a fifth attempt.  (The source initializes `retries = 5` but the
pre-decrementing `while (--retries !== 0)` runs the body only 4
times.) -/
theorem swapuz_convergence_four_attempts
    (provider : ℚ → Except SwapError ℚ) (target : ℚ) (fromCC toCC : String)
    (nativeAmount : ℚ)
    (h : ∀ a, ∃ r, provider a = .ok r ∧ r < target) :
    swapuzFetchSwapQuoteTo provider target fromCC toCC nativeAmount =
      (4, .error (.swapCurrencyError swapuzPluginId fromCC toCC)) := by
  show swapuzConverge provider target fromCC toCC nativeAmount (4 + 1) = _
  exact swapuzConverge_undershoot provider target fromCC toCC h 4 nativeAmount

/-- C1 (counterexample): with a provider stub that always returns
realized output `0` for a positive target, the solver stops after 4
attempts, not the 5 the claim requires. -/
theorem swapuz_convergence_not_five_attempts :
    swapuzFetchSwapQuoteTo (fun _ => .ok 0) 1 "BTC" "ETH" 1 =
      (4, .error (.swapCurrencyError "swapuz" "BTC" "ETH")) ∧
    (swapuzFetchSwapQuoteTo (fun _ => .ok 0) 1 "BTC" "ETH" 1).1 ≠ 5 := by
  decide

/-- C1 (witness): the amended theorem applied to the constant-zero
provider stub. -/
theorem swapuz_convergence_four_attempts_witness :
    swapuzFetchSwapQuoteTo (fun _ => .ok 0) 1 "BTC" "ETH" 1 =
      (4, .error (.swapCurrencyError swapuzPluginId "BTC" "ETH")) :=
  swapuz_convergence_four_attempts (fun _ => .ok 0) 1 "BTC" "ETH" 1
    (fun a => ⟨0, rfl, by norm_num⟩)

/-- C2: in every iteration of the convergence loop, a realized output
meeting or exceeding the target returns the current quote (overshoot
acceptable, undershoot not), and otherwise the next candidate input
amount is the previous candidate multiplied by exactly
`1.001 + (target - realized) / target`, in exact rational
arithmetic. -/
theorem swapuz_convergence_iteration
    (provider : ℚ → Except SwapError ℚ) (target : ℚ) (fromCC toCC : String)
    (amt realized : ℚ) (retries : ℕ)
    (h : provider amt = .ok realized) :
    (target ≤ realized →
      swapuzConverge provider target fromCC toCC amt (retries + 2) =
        (1, .ok amt)) ∧
    (realized < target →
      swapuzConverge provider target fromCC toCC amt (retries + 2) =
        ((swapuzConverge provider target fromCC toCC
            (amt * (1001 / 1000 + (target - realized) / target))
            (retries + 1)).1 + 1,
          (swapuzConverge provider target fromCC toCC
            (amt * (1001 / 1000 + (target - realized) / target))
            (retries + 1)).2)) := by
  constructor
  · intro hge
    simp only [swapuzConverge, h]
    rw [if_pos hge]
  · intro hlt
    simp only [swapuzConverge, h]
    rw [if_neg (not_le.mpr hlt), mul_comm]

/-- C2 (witness): one undershooting iteration at target `10`, realized
`5`, candidate `2`: the next candidate is
`2 * (1.001 + 5/10) = 3.002`. -/
theorem swapuz_convergence_iteration_witness :
    swapuzConverge (fun _ => .ok 5) 10 "BTC" "ETH" 2 (3 + 2) =
      ((swapuzConverge (fun _ => .ok 5) 10 "BTC" "ETH"
          (2 * (1001 / 1000 + (10 - 5) / 10)) (3 + 1)).1 + 1,
        (swapuzConverge (fun _ => .ok 5) 10 "BTC" "ETH"
          (2 * (1001 / 1000 + (10 - 5) / 10)) (3 + 1)).2) :=
  (swapuz_convergence_iteration (fun _ => .ok 5) 10 "BTC" "ETH" 2 5 3 rfl).2
    (by norm_num)

/-- C3: the Swapuz client attempts the fixed-rate mode first, attempts
the floating-rate mode only when the fixed-rate attempt fails, and when
both fail it surfaces the fixed-rate error. -/
theorem swapuz_mode_fallback {α : Type}
    (run : SwapuzMode → Except SwapError α) :
    (∀ q, run .fix = .ok q → swapuzTryModes run = ([.fix], .ok q)) ∧
    (∀ e, run .fix = .error e →
      (swapuzTryModes run).1 = [.fix, .float] ∧
      (∀ q, run .float = .ok q →
        swapuzTryModes run = ([.fix, .float], .ok q)) ∧
      (∀ e2, run .float = .error e2 →
        swapuzTryModes run = ([.fix, .float], .error e))) := by
  constructor
  · intro q hq
    simp [swapuzTryModes, hq]
  · intro e he
    refine ⟨?_, ?_, ?_⟩
    · cases hf : run .float <;> simp [swapuzTryModes, he, hf]
    · intro q hq
      simp [swapuzTryModes, he, hq]
    · intro e2 he2
      simp [swapuzTryModes, he, he2]

/-- C3 (witness): the theorem applied to a run where both modes fail
with distinct errors: the surfaced error is the fixed-rate one. -/
theorem swapuz_mode_fallback_witness :
    swapuzTryModes
        (fun m => match m with
          | .fix => (.error (.httpError "swapuz rate" 500) : Except SwapError ℚ)
          | .float => .error (.httpError "swapuz rate" 404)) =
      ([.fix, .float], .error (.httpError "swapuz rate" 500)) :=
  ((swapuz_mode_fallback
        (fun m => match m with
          | .fix => (.error (.httpError "swapuz rate" 500) : Except SwapError ℚ)
          | .float => .error (.httpError "swapuz rate" 404))).2
      (.httpError "swapuz rate" 500) rfl).2.2 (.httpError "swapuz rate" 404) rfl

/-- C7: when the provider's reported minimum amount exceeds the
requested amount, the Swapuz `getQuote` attempt fails with the
below-minimum error carrying the minimum converted back into native
units, and the order-creation call is not issued in that attempt. -/
theorem swapuz_below_minimum (mode : SwapuzMode) (env : SwapuzModeEnv)
    (fromCC toCC : String)
    (nativeAmount largeDenomAmount fromMult toMult : ℚ)
    (rate : SwapuzRateResult)
    (hrate : env.rateOutcome = .ok (some rate))
    (hmin : largeDenomAmount < rate.minAmount) :
    swapuzGetQuote mode env fromCC toCC nativeAmount largeDenomAmount
        fromMult toMult =
      ([.rateFetch mode],
        .error (.swapBelowLimitError swapuzPluginId
          (rate.minAmount * fromMult))) ∧
    ∀ m, SwapuzEffect.orderFetch m ∉
      (swapuzGetQuote mode env fromCC toCC nativeAmount largeDenomAmount
        fromMult toMult).1 := by
  have hq : swapuzGetQuote mode env fromCC toCC nativeAmount largeDenomAmount
      fromMult toMult =
      ([.rateFetch mode],
        .error (.swapBelowLimitError swapuzPluginId
          (rate.minAmount * fromMult))) := by
    simp [swapuzGetQuote, hrate, hmin]
  refine ⟨hq, ?_⟩
  intro m
  rw [hq]
  simp

/-- C4: route selection fails with the currency-pair error when the
response has zero routes or the first route lists at most one provider
hop, and a first route with two or more provider hops passes the
hop-count check. -/
theorem tda_route_hop_check (fromCC toCC : String) :
    tdaSelectRoute fromCC toCC [] =
      .error (.swapCurrencyError tdaPluginId fromCC toCC) ∧
    (∀ (route : ThorRoute) (rest : List ThorRoute),
      route.providers.length = 1 →
      tdaSelectRoute fromCC toCC (route :: rest) =
        .error (.swapCurrencyError tdaPluginId fromCC toCC)) ∧
    (∀ (route : ThorRoute) (rest : List ThorRoute),
      2 ≤ route.providers.length →
      tdaSelectRoute fromCC toCC (route :: rest) = .ok route) := by
  refine ⟨rfl, ?_, ?_⟩
  · intro route rest hlen
    simp [tdaSelectRoute, hlen]
  · intro route rest hlen
    simp [tdaSelectRoute, Nat.not_le.mpr (Nat.lt_of_lt_of_le Nat.one_lt_two hlen)]

/-- A single-hop route fixture. -/
def tdaRouteOneHop : ThorRoute :=
  { contract := some "0xaggregator"
    contractMethod := some "swapIn"
    providers := ["THORCHAIN"]
    calldata := fun _ => none
    expectedOutputMaxSlippage := "100"
    path := "ETH > BTC" }

/-- A two-hop route fixture whose first provider is `THORCHAIN`. -/
def tdaRouteTwoHops : ThorRoute :=
  { contract := some "0xaggregator"
    contractMethod := some "swapIn"
    providers := ["THORCHAIN", "SUSHISWAP"]
    calldata := fun _ => none
    expectedOutputMaxSlippage := "100"
    path := "ETH > BTC" }

/-- C4 (witness): a one-hop route is rejected, a two-hop route is
selected. -/
theorem tda_route_hop_check_witness :
    tdaSelectRoute "ETH" "BTC" [tdaRouteOneHop] =
      .error (.swapCurrencyError tdaPluginId "ETH" "BTC") ∧
    tdaSelectRoute "ETH" "BTC" [tdaRouteTwoHops] = .ok tdaRouteTwoHops :=
  ⟨(tda_route_hop_check "ETH" "BTC").2.1 tdaRouteOneHop [] rfl,
    (tda_route_hop_check "ETH" "BTC").2.2 tdaRouteTwoHops []
      (by norm_num [tdaRouteTwoHops])⟩

/-- C5: a request whose wallets resolve to the same currency plugin and
the same asset code fails with the currency-pair error immediately, for
any amount, with no network effect issued. -/
theorem tda_same_asset_rejected (env : TdaEnv) (st : TdaState)
    (hp : env.request.fromPluginId = env.request.toPluginId)
    (hc : env.request.fromCurrencyCode = env.request.toCurrencyCode) :
    tdaFetchSwapQuoteInner env st =
      (st, [], .error (.swapCurrencyError tdaPluginId
        env.request.fromCurrencyCode env.request.toCurrencyCode)) := by
  simp [tdaFetchSwapQuoteInner, hp, hc]

/-- An environment fixture requesting ETH → ETH on the same chain. -/
def tdaEnvSameAsset : TdaEnv :=
  { request :=
      { fromPluginId := "ethereum"
        toPluginId := "ethereum"
        fromCurrencyCode := "ETH"
        toCurrencyCode := "ETH"
        nativeAmount := "123456"
        quoteFor := "from" }
    invalidCodes := false
    fromAddress := "0xfrom"
    toAddress := "0xto"
    mainnetCode := fun _ => some "ETH"
    now := 1000000
    infoOutcome := .failed
    sellAmount := "1.23456"
    fromTokenIdRaw := none
    toTokenIdRaw := none
    iaOutcome := .failed
    quoteOutcome := .failed
    toNativeAmount := "0"
    evmCodes := fun _ => true
    evmTokenData := ""
    approvalData := none
    gasLimit := none
    abiMap := fun _ _ => none
    encode := fun _ _ _ => none }

/-- C5 (witness): the same-asset fixture is rejected with no
effects. -/
theorem tda_same_asset_rejected_witness :
    tdaFetchSwapQuoteInner tdaEnvSameAsset { exchangeInfo := none, lastUpdate := 0 } =
      ({ exchangeInfo := none, lastUpdate := 0 }, [],
        .error (.swapCurrencyError tdaPluginId "ETH" "ETH")) :=
  tda_same_asset_rejected tdaEnvSameAsset
    { exchangeInfo := none, lastUpdate := 0 } rfl rfl

/-- C6 (amended): for a call-data build whose registered router-type tag
is not in the template table, building fails — but when the tag is
`INVALID` the failure is the very same `Could not find ABI for contract`
error that is raised when no interface is registered for the pair (the
inner `Unsupported contract` throw is swallowed by the surrounding
`catch`), and only a tag that is neither `INVALID` nor a template tag
fails differently, with an unclassified lookup `TypeError`; in every
case no call data is produced. -/
theorem tda_router_type_classification
    (abiMap : String → String → Option AbiEntry)
    (encode : String → List (Option String) → String → Option String)
    (currencyPluginId contractAddress contractMethod : String)
    (calldata : String → Option String) :
    (abiMap currencyPluginId (toLowerCase contractAddress) = none →
      getCalldataData abiMap encode currencyPluginId contractAddress
          contractMethod calldata =
        .error (.couldNotFindAbi currencyPluginId contractAddress)) ∧
    (∀ entry, abiMap currencyPluginId (toLowerCase contractAddress) = some entry →
      calldataOrder entry.type = none →
      getCalldataData abiMap encode currencyPluginId contractAddress
          contractMethod calldata =
        .error (if entry.type = "INVALID" then
          .couldNotFindAbi currencyPluginId contractAddress
        else .routerTypeLookupTypeError entry.type)) := by
  constructor
  · intro hnone
    simp [getCalldataData, hnone]
  · intro entry hsome horder
    by_cases hty : entry.type = "INVALID" <;>
      simp [getCalldataData, hsome, horder, hty]

/-- C6 (counterexample): a pair registered with router-type tag
`INVALID` — a tag not in the template table — fails with exactly the
same error value as a pair with no registered interface at all, so the
two failures are not distinct. -/
theorem tda_unknown_router_type_not_distinct :
    getCalldataData
        (fun p a =>
          if p = "ethereum" ∧ a = "0xrouter" then
            some { type := "INVALID", data := "abi" }
          else none)
        (fun _ _ _ => none) "ethereum" "0xrouter" "swapIn" (fun _ => none) =
      .error (.couldNotFindAbi "ethereum" "0xrouter") ∧
    getCalldataData (fun _ _ => none) (fun _ _ _ => none) "ethereum"
        "0xrouter" "swapIn" (fun _ => none) =
      .error (.couldNotFindAbi "ethereum" "0xrouter") := by
  decide

/-- C6 (witness): a registered tag `WEIRD`, neither `INVALID` nor a
template tag, fails with the unclassified lookup error. -/
theorem tda_router_type_classification_witness :
    getCalldataData
        (fun _ _ => some { type := "WEIRD", data := "abi" })
        (fun _ _ _ => none) "ethereum" "0xrouter" "swapIn" (fun _ => none) =
      .error (.routerTypeLookupTypeError "WEIRD") :=
  (tda_router_type_classification
      (fun _ _ => some { type := "WEIRD", data := "abi" })
      (fun _ _ _ => none) "ethereum" "0xrouter" "swapIn" (fun _ => none)).2
    { type := "WEIRD", data := "abi" } rfl rfl

/-- C8: a failed exchange-info refresh (transport throw, timeout, or
non-success status) leaves the cache unchanged, resolves the tuning from
the previously cached payload when one exists and from the hardcoded
defaults otherwise, and the quote result is identical to what any other
failed refresh outcome yields — the failure is never surfaced. -/
theorem tda_info_refresh_failure (env : TdaEnv) (st : TdaState)
    (h : ∀ p, env.infoOutcome ≠ FetchOutcome.ok p) :
    (tdaRefreshInfo env.now env.infoOutcome st).1 = st ∧
    (st.exchangeInfo = none →
      tdaTuningOf (tdaRefreshInfo env.now env.infoOutcome st).1 =
        { daVolatilitySpread := DA_VOLATILITY_SPREAD_DEFAULT
          thornodeServers := THORNODE_SERVERS_DEFAULT
          thorswapServers := THORSWAP_DEFAULT_SERVERS }) ∧
    (∀ payload, st.exchangeInfo = some payload →
      tdaTuningOf (tdaRefreshInfo env.now env.infoOutcome st).1 =
        { daVolatilitySpread := payload.daVolatilitySpread
          thornodeServers := payload.thornodeServers.getD THORNODE_SERVERS_DEFAULT
          thorswapServers :=
            payload.thorSwapServers.getD THORSWAP_DEFAULT_SERVERS }) ∧
    tdaFetchSwapQuoteInner env st =
      tdaFetchSwapQuoteInner { env with infoOutcome := .notOk 500 } st := by
  have hrefresh : tdaRefreshInfo env.now env.infoOutcome st =
      tdaRefreshInfo env.now (.notOk 500) st := by
    cases houtcome : env.infoOutcome with
    | ok p => exact absurd houtcome (h p)
    | failed => by_cases hc : env.now - st.lastUpdate >
        EXCHANGE_INFO_UPDATE_FREQ_MS ∨ st.exchangeInfo = none <;>
      simp [tdaRefreshInfo, hc]
    | notOk s => by_cases hc : env.now - st.lastUpdate >
        EXCHANGE_INFO_UPDATE_FREQ_MS ∨ st.exchangeInfo = none <;>
      simp [tdaRefreshInfo, hc]
  have hfst : (tdaRefreshInfo env.now env.infoOutcome st).1 = st := by
    rw [hrefresh]
    by_cases hc : env.now - st.lastUpdate > EXCHANGE_INFO_UPDATE_FREQ_MS ∨
        st.exchangeInfo = none <;>
      simp [tdaRefreshInfo, hc]
  refine ⟨hfst, ?_, ?_, ?_⟩
  · intro hnone
    rw [hfst]
    simp [tdaTuningOf, hnone]
  · intro payload hsome
    rw [hfst]
    simp [tdaTuningOf, hsome]
  · have hb : ∀ (fm : String) (ia : InboundAddress) (route : ThorRoute),
        tdaBuildSpend { env with infoOutcome := FetchOutcome.notOk 500 } fm ia
            route =
          tdaBuildSpend env fm ia route := fun _ _ _ => rfl
    simp only [tdaFetchSwapQuoteInner, hrefresh, hb]

/-- An environment fixture whose info refresh throws. -/
def tdaEnvInfoFailed : TdaEnv :=
  { tdaEnvSameAsset with
    request :=
      { fromPluginId := "ethereum"
        toPluginId := "bitcoin"
        fromCurrencyCode := "ETH"
        toCurrencyCode := "BTC"
        nativeAmount := "123456"
        quoteFor := "from" }
    infoOutcome := .failed }

/-- C8 (witness): a thrown refresh with a populated cache keeps the
cached payload and serves its tuning. -/
theorem tda_info_refresh_failure_witness :
    (tdaRefreshInfo tdaEnvInfoFailed.now tdaEnvInfoFailed.infoOutcome
        { exchangeInfo := some
            { daVolatilitySpread := 1 / 50
              thorSwapServers := none
              thornodeServers := none }
          lastUpdate := 0 }).1 =
      { exchangeInfo := some
          { daVolatilitySpread := 1 / 50
            thorSwapServers := none
            thornodeServers := none }
        lastUpdate := 0 } ∧
    tdaTuningOf (tdaRefreshInfo tdaEnvInfoFailed.now
        tdaEnvInfoFailed.infoOutcome
        { exchangeInfo := some
            { daVolatilitySpread := 1 / 50
              thorSwapServers := none
              thornodeServers := none }
          lastUpdate := 0 }).1 =
      { daVolatilitySpread := 1 / 50
        thornodeServers := THORNODE_SERVERS_DEFAULT
        thorswapServers := THORSWAP_DEFAULT_SERVERS } :=
  ⟨(tda_info_refresh_failure tdaEnvInfoFailed
      { exchangeInfo := some
          { daVolatilitySpread := 1 / 50
            thorSwapServers := none
            thornodeServers := none }
        lastUpdate := 0 } (fun _ hcontra => FetchOutcome.noConfusion hcontra)).1,
    (tda_info_refresh_failure tdaEnvInfoFailed
      { exchangeInfo := some
          { daVolatilitySpread := 1 / 50
            thorSwapServers := none
            thornodeServers := none }
        lastUpdate := 0 } (fun _ hcontra => FetchOutcome.noConfusion hcontra)).2.2.1
      { daVolatilitySpread := 1 / 50
        thorSwapServers := none
        thornodeServers := none } rfl⟩

/-- C7 (witness): minimum `7`, requested denominated amount `3`,
multiplier `100`: the attempt fails carrying native minimum `700` and
issues only the rate fetch. -/
theorem swapuz_below_minimum_witness :
    swapuzGetQuote .fix
        { rateOutcome := .ok (some { minAmount := 7 }),
          orderOutcome := .ok none } "BTC" "ETH" 300 3 100 1 =
      ([.rateFetch .fix],
        .error (.swapBelowLimitError swapuzPluginId (7 * 100))) :=
  (swapuz_below_minimum .fix
      { rateOutcome := .ok (some { minAmount := 7 }),
        orderOutcome := .ok none } "BTC" "ETH" 300 3 100 1 { minAmount := 7 }
      rfl (by norm_num)).1

/-- C9: for an EVM-source-chain swap whose source asset is a token (the
provider chain name differs from the asset code), a successful build
produces a main spend instruction with `nativeAmount` `'0'` whose
destination is the resolved contract address — the router, not the
deposit vault — while the returned order's `fromNativeAmount` still
equals the request's original native amount. -/
theorem tda_token_spend_shape (env : TdaEnv) (fromMainnetCode : String)
    (inAddr : InboundAddress) (route : ThorRoute) (order : TdaSwapOrder)
    (hevm : env.evmCodes fromMainnetCode = true)
    (htoken : fromMainnetCode ≠ env.request.fromCurrencyCode)
    (hok : tdaBuildSpend env fromMainnetCode inAddr route = .ok order) :
    order.spendNativeAmount = "0" ∧
    order.fromNativeAmount = env.request.nativeAmount ∧
    ∀ c, (if route.providers.head? = some "THORCHAIN" then inAddr.router
        else route.contract) = some c →
      order.spendPublicAddress = c ∧
      (c ≠ inAddr.address → order.spendPublicAddress ≠ inAddr.address) := by
  simp only [tdaBuildSpend, hevm, htoken, ne_eq, not_false_eq_true, ite_true,
    if_true] at hok
  split at hok
  next heqCA => exact absurd hok (by simp)
  next contractAddr heqCA =>
    split at hok
    next e hmemo => exact absurd hok (by simp)
    next memo hmemo =>
      simp only [Except.ok.injEq] at hok
      subst hok
      refine ⟨rfl, rfl, ?_⟩
      intro c hc
      rw [heqCA] at hc
      injection hc with hc2
      subst hc2
      exact ⟨rfl, fun hne => hne⟩

/-- An environment fixture for an EVM token swap (USDC on Ethereum to
BTC). -/
def tdaEnvToken : TdaEnv :=
  { tdaEnvSameAsset with
    request :=
      { fromPluginId := "ethereum"
        toPluginId := "bitcoin"
        fromCurrencyCode := "USDC"
        toCurrencyCode := "BTC"
        nativeAmount := "5000000"
        quoteFor := "from" }
    fromTokenIdRaw := some "a0b86991c6218b36c1d19d4a2e9eb0ce3606eb48"
    evmTokenData := "0xdeadbeef"
    approvalData := some "0xapprove" }

/-- An inbound-address fixture for the Ethereum chain. -/
def tdaInAddrEth : InboundAddress :=
  { chain := "ETH"
    address := "0xvault"
    router := some "0xthorrouter"
    halted := false }

/-- The order produced by `tdaBuildSpend` on the token fixture. -/
def tdaTokenOrder : TdaSwapOrder :=
  { currencyCode := "USDC"
    spendMemo := "0xdeadbeef"
    spendNativeAmount := "0"
    spendPublicAddress := "0xthorrouter"
    payoutAddress := "0xto"
    payoutNativeAmount := "0"
    gasLimit := none
    preTx := some
      { currencyCode := "ETH"
        memo := "0xapprove"
        nativeAmount := "0"
        publicAddress := "0xa0b86991c6218b36c1d19d4a2e9eb0ce3606eb48" }
    fromNativeAmount := "5000000"
    metadataNotes := "DEX Providers: THORCHAIN -> SUSHISWAP\nPath: ETH > BTC" }

/-- C9 (witness): the theorem applied to the token fixture: amount `'0'`,
destination the router and not the vault, `fromNativeAmount` the
original request amount. -/
theorem tda_token_spend_shape_witness :
    tdaTokenOrder.spendNativeAmount = "0" ∧
    tdaTokenOrder.fromNativeAmount = tdaEnvToken.request.nativeAmount ∧
    tdaTokenOrder.spendPublicAddress = "0xthorrouter" ∧
    tdaTokenOrder.spendPublicAddress ≠ tdaInAddrEth.address :=
  have h := tda_token_spend_shape tdaEnvToken "ETH" tdaInAddrEth
    tdaRouteTwoHops tdaTokenOrder rfl (by decide) (by decide)
  ⟨h.1, h.2.1, (h.2.2 "0xthorrouter" (by decide)).1,
    (h.2.2 "0xthorrouter" (by decide)).2 (by decide)⟩

/-- C10: a request with `quoteFor = 'to'` never yields a swap order from
the Thorchain DEX Aggregator plugin, and — for a request passing the
disallowed-pair check — it fails with the currency-pair
`SwapCurrencyError`. -/
theorem tda_reverse_quote_rejected (env : TdaEnv) (st : TdaState)
    (h : env.request.quoteFor = "to") :
    (∀ order, (tdaFetchSwapQuoteInner env st).2.2 ≠ .ok order) ∧
    (env.invalidCodes = false →
      (tdaFetchSwapQuoteInner env st).2.2 =
        .error (.swapCurrencyError tdaPluginId env.request.fromCurrencyCode
          env.request.toCurrencyCode)) := by
  constructor
  · intro order
    simp only [tdaFetchSwapQuoteInner]
    by_cases h1 : env.request.fromPluginId = env.request.toPluginId ∧
        env.request.fromCurrencyCode = env.request.toCurrencyCode
    · simp [h1]
    · by_cases h2 : env.invalidCodes = true
      · simp [h1, h2]
      · cases hf : env.mainnetCode env.request.fromPluginId with
        | none => simp [h1, h2, hf]
        | some fm =>
            cases ht : env.mainnetCode env.request.toPluginId with
            | none => simp [h1, h2, hf, ht]
            | some tm => simp [h1, h2, hf, ht, h]
  · intro hinv
    simp only [tdaFetchSwapQuoteInner]
    by_cases h1 : env.request.fromPluginId = env.request.toPluginId ∧
        env.request.fromCurrencyCode = env.request.toCurrencyCode
    · simp [h1]
    · cases hf : env.mainnetCode env.request.fromPluginId with
      | none => simp [h1, hinv, hf]
      | some fm =>
          cases ht : env.mainnetCode env.request.toPluginId with
          | none => simp [h1, hinv, hf, ht]
          | some tm => simp [h1, hinv, hf, ht, h]

/-- An environment fixture requesting a reverse (`quoteFor = 'to'`)
quote. -/
def tdaEnvReverse : TdaEnv :=
  { tdaEnvSameAsset with
    request :=
      { fromPluginId := "ethereum"
        toPluginId := "bitcoin"
        fromCurrencyCode := "ETH"
        toCurrencyCode := "BTC"
        nativeAmount := "123456"
        quoteFor := "to" } }

/-- C10 (witness): the reverse fixture fails with the currency-pair
error. -/
theorem tda_reverse_quote_rejected_witness :
    (tdaFetchSwapQuoteInner tdaEnvReverse
        { exchangeInfo := none, lastUpdate := 0 }).2.2 =
      .error (.swapCurrencyError tdaPluginId "ETH" "BTC") :=
  (tda_reverse_quote_rejected tdaEnvReverse
    { exchangeInfo := none, lastUpdate := 0 } rfl).2 rfl
